import Mathlib

/-!
Verification of the fake driver interfaces module
(`ironic/drivers/modules/fake.py`): a shallow embedding of the six stub
interface implementations and proofs of the specified properties.

Mutation of `task.node` is modelled by explicit state passing: a method
that in the source mutates the node and may raise returns
`Except Err Task`, where the `.ok` branch carries the updated task and the
`.error` branch corresponds to the raise (the source raises before any
mutation, so the error branch leaves the caller's task untouched).
-/

namespace Ironic

namespace states

/-- Modelled from the spec: the shared state/constant vocabulary of
`ironic.common.states` is not under src/; the spec fixes the power states
as the strings "power on" / "power off". -/
def POWER_ON : String := "power on"

/-- Modelled from the spec: canonical powered-off value. -/
def POWER_OFF : String := "power off"

/-- Modelled from the spec: deploy lifecycle terminal marker "deploy done". -/
def DEPLOYDONE : String := "deploy done"

/-- Modelled from the spec: deploy lifecycle terminal marker "deleted". -/
def DELETED : String := "deleted"

end states

namespace boot_devices

/-- Modelled from the spec: `ironic.common.boot_devices` is not under src/;
the spec fixes the network-boot device identifier as "pxe". -/
def PXE : String := "pxe"

end boot_devices

/-- The error-signaling facility (`ironic.common.exception`): the two error
kinds this module raises, each carrying its templated message. -/
inductive Err where
  | InvalidParameterValue (msg : String)
  | MissingParameterValue (msg : String)
deriving DecidableEq, Repr

/-- The node record: the only field this module reads or writes is
`power_state`. -/
structure Node where
  power_state : String
deriving DecidableEq, Repr

/-- The task context: owns a reference to exactly one node. -/
structure Task where
  node : Node
deriving DecidableEq, Repr

/-- Python truthiness test on an optional string parameter, as used by
`if not bar:` after `kwargs.get` (absent → None → falsy; "" → falsy). -/
def falsy : Option String → Bool
  | none => true
  | some s => s = ""

/-- The substring-containment property used to state "the message carries
the offending value". -/
def containsValue (msg v : String) : Prop :=
  ∃ pre post, msg = pre ++ v ++ post

namespace FakePower

def get_properties : List (String × String) := []

def get_power_state (task : Task) : String :=
  task.node.power_state

def set_power_state (task : Task) (power_state : String) : Except Err Task :=
  if power_state ∉ [states.POWER_ON, states.POWER_OFF] then
    .error (.InvalidParameterValue
      ("set_power_state called with an invalid power state: "
        ++ power_state ++ "."))
  else
    .ok { task with node := { task.node with power_state := power_state } }

/-- The task as the caller observes it after `set_power_state`: updated on
success, untouched when the call raised. -/
def run_set_power_state (task : Task) (power_state : String) : Task :=
  match set_power_state task power_state with
  | .ok t => t
  | .error _ => task

end FakePower

namespace FakeDeploy

def deploy (task : Task) : String × Task :=
  (states.DEPLOYDONE, task)

def tear_down (task : Task) : String × Task :=
  (states.DELETED, task)

end FakeDeploy

namespace FakeVendorA

def get_properties : List (String × String) :=
  [("A1", "A1 description. Required."),
   ("A2", "A2 description. Optional.")]

def validate (method : String) (bar : Option String) : Except Err Unit :=
  if method = "first_method" then
    if falsy bar then
      .error (.MissingParameterValue
        ("Parameter \x27bar\x27 not passed to method \x27first_method\x27."))
    else
      .ok ()
  else
    .ok ()

def first_method (task : Task) (http_method : String) (bar : String) : Bool :=
  if bar = "baz" then true else false

end FakeVendorA

namespace FakeVendorB

def get_properties : List (String × String) :=
  [("B1", "B1 description. Required."),
   ("B2", "B2 description. Required.")]

def validate (method : String) (bar : Option String) : Except Err Unit :=
  if method ∈ ["second_method", "third_method_sync"] then
    if falsy bar then
      .error (.MissingParameterValue
        ("Parameter \x27bar\x27 not passed to method \x27" ++ method
          ++ "\x27."))
    else
      .ok ()
  else
    .ok ()

def second_method (task : Task) (http_method : String) (bar : String) : Bool :=
  if bar = "kazoo" then true else false

def third_method_sync (task : Task) (http_method : String) (bar : String) :
    Bool :=
  if bar = "meow" then true else false

end FakeVendorB

/-- The record returned by `FakeManagement.get_boot_device`. -/
structure BootDeviceInfo where
  boot_device : String
  persistent : Bool
deriving DecidableEq, Repr

namespace FakeManagement

def get_supported_boot_devices : List String :=
  [boot_devices.PXE]

def set_boot_device (task : Task) (device : String) (persistent : Bool) :
    Except Err Task :=
  if device ∉ get_supported_boot_devices then
    .error (.InvalidParameterValue
      ("Invalid boot device " ++ device ++ " specified."))
  else
    .ok task

/-- The task as the caller observes it after one `set_boot_device` call:
the success value on success, the unchanged task when the call raised. -/
def run_set_boot_device (task : Task) (call : String × Bool) : Task :=
  match set_boot_device task call.1 call.2 with
  | .ok t => t
  | .error _ => task

/-- The task after a sequence of `set_boot_device` calls, each given by a
(device, persistent) pair. -/
def run_set_boot_device_seq (task : Task) (calls : List (String × Bool)) :
    Task :=
  calls.foldl run_set_boot_device task

def get_boot_device (task : Task) : BootDeviceInfo :=
  { boot_device := boot_devices.PXE, persistent := false }

end FakeManagement

/-- C1: for every node and every power_state argument equal to one of the
two canonical values "power on" or "power off", `FakePower.set_power_state`
succeeds, overwrites the node's power_state field with that value, and a
subsequent `FakePower.get_power_state` on the same node returns exactly
that value. -/
theorem c1_set_power_state_roundtrip (task : Task) (p : String)
    (h : p = states.POWER_ON ∨ p = states.POWER_OFF) :
    ∃ t, FakePower.set_power_state task p = Except.ok t ∧
      t.node.power_state = p ∧ FakePower.get_power_state t = p := by
  rcases h with h | h <;> subst h <;> exact ⟨_, rfl, rfl, rfl⟩

/-- Witness for C1 at the concrete input "power on" on a node that was
powered off. -/
theorem c1_witness :
    (states.POWER_ON = states.POWER_ON ∨ states.POWER_ON = states.POWER_OFF) ∧
    ∃ t, FakePower.set_power_state ⟨⟨states.POWER_OFF⟩⟩ states.POWER_ON =
        Except.ok t ∧
      t.node.power_state = states.POWER_ON ∧
      FakePower.get_power_state t = states.POWER_ON :=
  ⟨Or.inl rfl,
    c1_set_power_state_roundtrip ⟨⟨states.POWER_OFF⟩⟩ states.POWER_ON
      (Or.inl rfl)⟩

/-- C2: for every node and every power_state argument that is not one of
the two canonical values, `FakePower.set_power_state` raises an
InvalidParameterValue error whose message contains the offending value,
and the node's stored power_state is identical to its value before the
call. -/
theorem c2_set_power_state_invalid (task : Task) (p : String)
    (h : p ≠ states.POWER_ON ∧ p ≠ states.POWER_OFF) :
    (∃ msg, FakePower.set_power_state task p =
        Except.error (Err.InvalidParameterValue msg) ∧ containsValue msg p) ∧
    FakePower.run_set_power_state task p = task := by
  have hc : p ∉ [states.POWER_ON, states.POWER_OFF] := by
    simp [h.1, h.2]
  refine ⟨⟨"set_power_state called with an invalid power state: "
      ++ p ++ ".", ?_, ?_⟩, ?_⟩
  · simp [FakePower.set_power_state, hc]
  · exact ⟨"set_power_state called with an invalid power state: ", ".", rfl⟩
  · simp [FakePower.run_set_power_state, FakePower.set_power_state, hc]

/-- Witness for C2 at the empty-string power state. -/
theorem c2_witness :
    (("" : String) ≠ states.POWER_ON ∧ ("" : String) ≠ states.POWER_OFF) ∧
    ((∃ msg, FakePower.set_power_state ⟨⟨states.POWER_ON⟩⟩ "" =
        Except.error (Err.InvalidParameterValue msg) ∧ containsValue msg "") ∧
      FakePower.run_set_power_state ⟨⟨states.POWER_ON⟩⟩ "" =
        ⟨⟨states.POWER_ON⟩⟩) :=
  ⟨⟨by decide, by decide⟩,
    c2_set_power_state_invalid ⟨⟨states.POWER_ON⟩⟩ "" ⟨by decide, by decide⟩⟩

/-- C3: after any call to `FakePower.set_power_state`, whether it succeeds
or raises, the node's power_state field is either exactly its value before
the call or one of the two canonical values "power on" / "power off". -/
theorem c3_power_state_invariant (task : Task) (p : String) :
    (FakePower.run_set_power_state task p).node.power_state
        = task.node.power_state ∨
    (FakePower.run_set_power_state task p).node.power_state
        = states.POWER_ON ∨
    (FakePower.run_set_power_state task p).node.power_state
        = states.POWER_OFF := by
  by_cases hc : p ∈ [states.POWER_ON, states.POWER_OFF]
  · right
    simp only [List.mem_cons, List.mem_singleton, List.not_mem_nil,
      or_false] at hc
    rcases hc with hc | hc <;>
      simp [FakePower.run_set_power_state, FakePower.set_power_state, hc]
  · left
    simp [FakePower.run_set_power_state, FakePower.set_power_state, hc]

/-- C4: `FakeVendorA.validate` and `FakeVendorB.validate` raise a
MissingParameterValue error naming the parameter bar and the method
exactly when the method argument is one of the recognized passthru names
(first_method for A; second_method or third_method_sync for B) and the bar
parameter is absent or falsy; for any other method name they raise
nothing. -/
theorem c4_vendor_validate (method : String) (bar : Option String) :
    ((method = "first_method" ∧ falsy bar = true) →
      ∃ msg, FakeVendorA.validate method bar =
          Except.error (Err.MissingParameterValue msg) ∧
        containsValue msg "bar" ∧ containsValue msg method) ∧
    (¬(method = "first_method" ∧ falsy bar = true) →
      FakeVendorA.validate method bar = Except.ok ()) ∧
    ((method ∈ ["second_method", "third_method_sync"] ∧ falsy bar = true) →
      ∃ msg, FakeVendorB.validate method bar =
          Except.error (Err.MissingParameterValue msg) ∧
        containsValue msg "bar" ∧ containsValue msg method) ∧
    (¬(method ∈ ["second_method", "third_method_sync"] ∧ falsy bar = true) →
      FakeVendorB.validate method bar = Except.ok ()) := by
  refine ⟨?_, ?_, ?_, ?_⟩
  · rintro ⟨hm, hb⟩
    subst hm
    refine ⟨"Parameter \x27bar\x27 not passed to method \x27first_method\x27.",
      ?_, ⟨"Parameter \x27", "\x27 not passed to method \x27first_method\x27.",
        by decide⟩,
      ⟨"Parameter \x27bar\x27 not passed to method \x27", "\x27.", by decide⟩⟩
    simp [FakeVendorA.validate, hb]
  · intro hn
    by_cases hm : method = "first_method"
    · subst hm
      have hb : falsy bar ≠ true := fun hb => hn ⟨rfl, hb⟩
      simp [FakeVendorA.validate, hb]
    · simp [FakeVendorA.validate, hm]
  · rintro ⟨hm, hb⟩
    simp only [List.mem_cons, List.mem_singleton, List.not_mem_nil,
      or_false] at hm
    rcases hm with hm | hm <;> subst hm
    · refine ⟨"Parameter \x27bar\x27 not passed to method "
          ++ "\x27second_method\x27.", ?_,
        ⟨"Parameter \x27", "\x27 not passed to method \x27second_method\x27.",
          by decide⟩,
        ⟨"Parameter \x27bar\x27 not passed to method \x27", "\x27.",
          by decide⟩⟩
      simp [FakeVendorB.validate, hb]
    · refine ⟨"Parameter \x27bar\x27 not passed to method "
          ++ "\x27third_method_sync\x27.", ?_,
        ⟨"Parameter \x27",
          "\x27 not passed to method \x27third_method_sync\x27.", by decide⟩,
        ⟨"Parameter \x27bar\x27 not passed to method \x27", "\x27.",
          by decide⟩⟩
      simp [FakeVendorB.validate, hb]
  · intro hn
    by_cases hm : method ∈ ["second_method", "third_method_sync"]
    · have hb : falsy bar ≠ true := fun hb => hn ⟨hm, hb⟩
      simp [FakeVendorB.validate, hm, hb]
    · simp [FakeVendorB.validate, hm]

/-- Witness for C4 at the concrete input method = "second_method" with an
absent bar parameter. -/
theorem c4_witness :
    ("second_method" ∈ ["second_method", "third_method_sync"] ∧
      falsy none = true) ∧
    ∃ msg, FakeVendorB.validate "second_method" none =
        Except.error (Err.MissingParameterValue msg) ∧
      containsValue msg "bar" ∧ containsValue msg "second_method" :=
  ⟨⟨by decide, rfl⟩,
    (c4_vendor_validate "second_method" none).2.2.1 ⟨by decide, rfl⟩⟩

/-- C5: `FakeVendorA.first_method` returns true exactly when bar equals the
literal string "baz", for every task, http_method and bar. -/
theorem c5_first_method_iff (task : Task) (hm : String) (bar : String) :
    FakeVendorA.first_method task hm bar = true ↔ bar = "baz" := by
  by_cases h : bar = "baz" <;> simp [FakeVendorA.first_method, h]

/-- C6: `FakeVendorB.second_method` returns true exactly when bar equals
"kazoo", and `FakeVendorB.third_method_sync` returns true exactly when bar
equals "meow", for every task, http_method and bar. -/
theorem c6_second_third_method_iff (task : Task) (hm : String)
    (bar : String) :
    (FakeVendorB.second_method task hm bar = true ↔ bar = "kazoo") ∧
    (FakeVendorB.third_method_sync task hm bar = true ↔ bar = "meow") := by
  constructor
  · by_cases h : bar = "kazoo" <;> simp [FakeVendorB.second_method, h]
  · by_cases h : bar = "meow" <;> simp [FakeVendorB.third_method_sync, h]

/-- C7: `FakeManagement.get_supported_boot_devices` returns the
single-element list holding the "pxe" identifier;
`FakeManagement.set_boot_device` succeeds and leaves the node unmodified
when the device is that identifier, and for every other device raises an
InvalidParameterValue error whose message contains the rejected device. -/
theorem c7_boot_device_validation (task : Task) (device : String)
    (persistent : Bool) :
    FakeManagement.get_supported_boot_devices = [boot_devices.PXE] ∧
    (device = boot_devices.PXE →
      FakeManagement.set_boot_device task device persistent =
        Except.ok task) ∧
    (device ≠ boot_devices.PXE →
      ∃ msg, FakeManagement.set_boot_device task device persistent =
          Except.error (Err.InvalidParameterValue msg) ∧
        containsValue msg device) := by
  refine ⟨rfl, ?_, ?_⟩
  · intro h
    subst h
    rfl
  · intro h
    have hc : device ∉ FakeManagement.get_supported_boot_devices := by
      simp [FakeManagement.get_supported_boot_devices, h]
    refine ⟨"Invalid boot device " ++ device ++ " specified.", ?_,
      "Invalid boot device ", " specified.", rfl⟩
    simp [FakeManagement.set_boot_device, hc]

/-- Witness for C7 at the concrete rejected device "disk" and the accepted
device "pxe". -/
theorem c7_witness :
    (boot_devices.PXE = boot_devices.PXE ∧ ("disk" : String) ≠
      boot_devices.PXE) ∧
    FakeManagement.set_boot_device ⟨⟨states.POWER_ON⟩⟩ boot_devices.PXE
        false = Except.ok ⟨⟨states.POWER_ON⟩⟩ ∧
    ∃ msg, FakeManagement.set_boot_device ⟨⟨states.POWER_ON⟩⟩ "disk" false =
        Except.error (Err.InvalidParameterValue msg) ∧
      containsValue msg "disk" :=
  ⟨⟨rfl, by decide⟩,
    (c7_boot_device_validation ⟨⟨states.POWER_ON⟩⟩ boot_devices.PXE
      false).2.1 rfl,
    (c7_boot_device_validation ⟨⟨states.POWER_ON⟩⟩ "disk" false).2.2
      (by decide)⟩

/-- C8: for every task and every preceding sequence of
`FakeManagement.set_boot_device` calls, whether they succeeded or failed,
`FakeManagement.get_boot_device` returns exactly the fixed record with
boot_device "pxe" and persistent false. -/
theorem c8_get_boot_device_constant (task : Task)
    (calls : List (String × Bool)) :
    FakeManagement.get_boot_device
        (FakeManagement.run_set_boot_device_seq task calls) =
      { boot_device := boot_devices.PXE, persistent := false } := rfl

/-- C9: for every task, `FakeDeploy.deploy` returns the "deploy done"
status constant and `FakeDeploy.tear_down` returns the "deleted" status
constant, and neither modifies the node. -/
theorem c9_deploy_tear_down (task : Task) :
    FakeDeploy.deploy task = (states.DEPLOYDONE, task) ∧
    FakeDeploy.tear_down task = (states.DELETED, task) :=
  ⟨rfl, rfl⟩

/-- C10: the outcome of `FakeManagement.set_boot_device` is completely
independent of the persistent argument: for any fixed task and device, two
calls differing only in the persistent value return the same result, so
they both succeed with identical node state or both raise the same
error. -/
theorem c10_persistent_irrelevant (task : Task) (device : String)
    (p1 p2 : Bool) :
    FakeManagement.set_boot_device task device p1 =
      FakeManagement.set_boot_device task device p2 := rfl

end Ironic
